import Mathlib

/-!
Shallow embedding of `src/mod_installer.py` (ETS2 mod installer): the catalog
client, the download engine, the install orchestrator, the uninstall path and
the OS attribute helpers.

Python strings are modelled as Lean `String`.  The Python string primitives
used by the program (`str.strip()`, `str.lower()`, `str.split(sep)`, and the
substring test `sep in s`) are modelled by structural-recursion functions over
`String.data` so that every definition evaluates inside the kernel:
`pyStrip` trims the ASCII whitespace characters at both ends, `pyLower` maps
ASCII letters to lower case, and `pySplit` splits on non-overlapping
left-to-right occurrences of a non-empty separator, exactly as Python
`str.split` does.

Fallible OS calls are modelled with `Except`; the outcome of the external
`gdown.download` call and of the HTTP server are explicit environment values;
the two daemon threads an install spawns are modelled as event lists whose
interleavings (after the spawning main-thread events) form the possible
schedules of one install invocation.
-/

namespace ModInstaller

/-! ### Python string primitives -/

/-- Python `str.strip()`: drop whitespace at both ends. -/
def pyStrip (s : String) : String :=
  ⟨((s.data.dropWhile Char.isWhitespace).reverse.dropWhile Char.isWhitespace).reverse⟩

/-- Python `str.lower()` (ASCII letters). -/
def pyLower (s : String) : String :=
  ⟨s.data.map Char.toLower⟩

/-- Whether `sep` is a prefix of `s` (character lists). -/
def pyStartsWith : List Char → List Char → Bool
  | [], _ => true
  | _ :: _, [] => false
  | c :: cs, d :: ds => c == d && pyStartsWith cs ds

/-- Worker for `pySplit`, with enough fuel to consume the whole input. -/
def pySplitAux (sep : List Char) : Nat → List Char → List Char → List (List Char)
  | 0, rest, acc => [acc.reverse ++ rest]
  | fuel + 1, rest, acc =>
    if pyStartsWith sep rest then
      acc.reverse :: pySplitAux sep fuel (rest.drop sep.length) []
    else
      match rest with
      | [] => [acc.reverse]
      | c :: cs => pySplitAux sep fuel cs (c :: acc)

/-- Python `s.split(sep)` for a non-empty separator. -/
def pySplit (s sep : String) : List String :=
  (pySplitAux sep.data (s.data.length + 1) s.data []).map (fun l => ⟨l⟩)

/-- Python membership `sub in s` for a non-empty `sub`:
equivalent to `s.split(sub)` having more than one element. -/
def pyContains (s sub : String) : Bool :=
  (pySplit s sub).length > 1

/-! ### Data model -/

/-- A catalog record as returned by the `get_available_mods` endpoint, with
the keys "Mod Name", "Google Drive Link", "Serial Key", "Mod Internal Name". -/
structure ModDescriptor where
  modName : String
  driveLink : String
  serialKey : String
  internalName : String
  deriving DecidableEq, Repr

/-- The data arguments of
`install_mod(mod_name, internal_name, drive_link, serial_key_input, ...)`
(the two widget arguments carry no data into the control flow). -/
structure InstallArgs where
  modName : String
  internalName : String
  driveLink : String
  serialKeyInput : String
  deriving DecidableEq, Repr

/-- A `messagebox` notification: `showinfo` vs `showerror`, title and text. -/
inductive MsgBox where
  | info (title msg : String)
  | err (title msg : String)
  deriving DecidableEq, Repr

/-- Observable events of an install/uninstall run: filesystem operations,
thread spawns, and the outgoing key-rotation request. -/
inductive Ev where
  | unprotect (path : String)
  | deleteFile (path : String)
  | writeTmp (path : String)
  | renameFile (src dst : String)
  | setAttrs (path : String)
  | spawnDownload
  | spawnRotate
  | rotateRequest (internalName : String)
  deriving DecidableEq, Repr

/-- Which events mutate the filesystem (attribute changes included). -/
def Ev.isFsMutation : Ev → Bool
  | .unprotect _ => true
  | .deleteFile _ => true
  | .writeTmp _ => true
  | .renameFile _ _ => true
  | .setAttrs _ => true
  | .spawnDownload => false
  | .spawnRotate => false
  | .rotateRequest _ => false

/-- `os.path.join(dir, name)` for the paths this program builds. -/
def joinPath (dir name : String) : String := dir ++ "/" ++ name

/-- The canonical asset path
`os.path.join(MOD_INSTALL_PATH, f"{internal_name}.scs")`;
the installation directory is a parameter of the model. -/
def modAssetPath (dir internalName : String) : String :=
  joinPath dir (internalName ++ ".scs")

/-! ### `extract_drive_file_id` -/

/-- `extract_drive_file_id(drive_link)` from the source:
```
if "/file/d/" in drive_link:
    return drive_link.split("/file/d/")[1].split("/")[0]
elif "id=" in drive_link:
    return drive_link.split("id=")[1].split("&")[0]
return None
``` -/
def extract_drive_file_id (drive_link : String) : Option String :=
  if pyContains drive_link "/file/d/" then
    some ((pySplit ((pySplit drive_link "/file/d/").getD 1 "") "/").headD "")
  else if pyContains drive_link "id=" then
    some ((pySplit ((pySplit drive_link "id=").getD 1 "") "&").headD "")
  else
    none

/-- Python truthiness of `if not file_id:`: `None` and `""` are falsy. -/
def falsyId : Option String → Bool
  | none => true
  | some s => s == ""

/-- The download URL `f"https://drive.google.com/uc?id=" + file_id`. -/
def driveUrl (fileId : String) : String :=
  "https://drive.google.com/uc?id=" ++ fileId

/-! ### Download engine (`download_with_gdown`, inner `download()` body) -/

/-- The environment-determined outcome of the `gdown.download(url, temp_file)`
call: whether it raised, and the state of the staging file after the call
(`none` = no staging file on disk, `some n` = staging file of `n` bytes).
The later steps of the body (existence/size check, delete, rename, attribute
set) are deterministic given this outcome. -/
structure GdownOutcome where
  raised : Bool
  tmpAfter : Option Nat
  deriving DecidableEq, Repr

/-- Filesystem state relevant to one transfer: the staging file
(`destination + ".tmp"`) and the final file (`destination`), each either
absent or present with a byte size. -/
structure FsState where
  tmpSize : Option Nat
  finalSize : Option Nat
  deriving DecidableEq, Repr

/-- Result of one run of the inner `download()` body. -/
structure DownloadRun where
  fs : FsState
  events : List Ev
  sinkText : String
  notice : Option MsgBox
  retVal : Bool
  deriving DecidableEq, Repr

/-- The integrity threshold: `os.path.getsize(temp_file) < 500000`. -/
def MIN_MOD_SIZE : Nat := 500000

/-- One run of the inner `download()` body of `download_with_gdown`,
given the outcome of the `gdown.download` call.  On an exception the
`except` handler only logs, notifies and updates the label — it deletes
nothing.  Otherwise: a missing or too-small staging file is deleted (when
present) and failure is reported; a large-enough staging file is renamed to
the destination and its attributes are set. -/
def download_run (dest : String) (g : GdownOutcome) (fs0 : FsState) : DownloadRun :=
  let tmp := dest ++ ".tmp"
  let fs1 : FsState := { fs0 with tmpSize := g.tmpAfter }
  let wrote : List Ev := match g.tmpAfter with
    | some _ => [.writeTmp tmp]
    | none => []
  if g.raised then
    { fs := fs1, events := wrote, sinkText := "Download Failed",
      notice := some (.err "Error" "Failed to download mod"), retVal := false }
  else
    match g.tmpAfter with
    | none =>
        { fs := fs1, events := wrote, sinkText := "Download Failed",
          notice := some (.err "Error" "Download failed! Try again."),
          retVal := false }
    | some n =>
        if n < MIN_MOD_SIZE then
          { fs := { fs1 with tmpSize := none },
            events := wrote ++ [.deleteFile tmp],
            sinkText := "Download Failed",
            notice := some (.err "Error" "Download failed! Try again."),
            retVal := false }
        else
          { fs := { tmpSize := none, finalSize := some n },
            events := wrote ++ [.renameFile tmp dest, .setAttrs dest],
            sinkText := "Mod Installed!",
            notice := some (.info "Success" "installed successfully!"),
            retVal := true }

/-! ### Install orchestrator (`install_mod`) -/

/-- Synchronous outcome of `install_mod`. -/
inductive InstallOutcome where
  | invalidKey
  | invalidLink
  | started (fileId : String) (modPath : String)
  deriving DecidableEq, Repr

/-- Result of the synchronous part of `install_mod`: outcome, the
main-thread events (filesystem removal of a pre-existing asset and the two
thread spawns), the last progress-label text and the notification. -/
structure InstallRun where
  outcome : InstallOutcome
  events : List Ev
  sinkText : Option String
  notice : Option MsgBox
  deriving DecidableEq, Repr

/-- The loop
`for mod in mod_list: if mod["Mod Name"] == mod_name and
mod["Serial Key"].strip() == serial_key_input.strip(): ...` —
the first descriptor satisfying both tests, if any. -/
def findDescriptor (cat : List ModDescriptor) (a : InstallArgs) :
    Option ModDescriptor :=
  cat.find? (fun m =>
    m.modName == a.modName && pyStrip m.serialKey == pyStrip a.serialKeyInput)

/-- The synchronous body of
`install_mod(mod_name, internal_name, drive_link, serial_key_input, ...)`.
`cat` is the result of `fetch_mod_list()`, `pathExists` whether
`os.path.exists(mod_path)` holds at the probe.  When a descriptor matches
name and (stripped) serial key: the link is resolved; a falsy file id is an
immediate error before any filesystem mutation; otherwise a pre-existing
asset is unprotected and deleted, then the download thread and the
key-rotation thread are spawned.  When no descriptor matches, the run ends
with the invalid-serial-key report. -/
def install_mod (dir : String) (cat : List ModDescriptor) (a : InstallArgs)
    (pathExists : Bool) : InstallRun :=
  match findDescriptor cat a with
  | none =>
      { outcome := .invalidKey, events := [],
        sinkText := some "Invalid Key",
        notice := some (.err "Error" "Invalid serial key!") }
  | some _ =>
      let fid := extract_drive_file_id a.driveLink
      if falsyId fid then
        { outcome := .invalidLink, events := [],
          sinkText := some ("Preparing " ++ a.modName ++ "..."),
          notice := some (.err "Error" "Invalid Google Drive link!") }
      else
        let mpath := modAssetPath dir a.internalName
        { outcome := .started (fid.getD "") mpath,
          events := (if pathExists then
                       [.unprotect mpath, .deleteFile mpath]
                     else []) ++ [.spawnDownload, .spawnRotate],
          sinkText := some ("Preparing " ++ a.modName ++ "..."),
          notice := none }

/-- `install_mod` proceeds past serial-key validation: every path except the
invalid-serial-key report. -/
def passesValidation (run : InstallRun) : Prop :=
  run.outcome ≠ .invalidKey

instance (run : InstallRun) : Decidable (passesValidation run) := by
  unfold passesValidation; infer_instance

/-- The event list of the spawned `update_key` thread: one key-rotation
request (`post_update_serial_key(internal_name)`). -/
def rotate_task (internalName : String) : List Ev :=
  [.rotateRequest internalName]

/-- Interleaving of two event lists (order inside each list preserved). -/
inductive Merge : List Ev → List Ev → List Ev → Prop
  | nil : Merge [] [] []
  | left {x : Ev} {as bs cs : List Ev} :
      Merge as bs cs → Merge (x :: as) bs (x :: cs)
  | right {x : Ev} {as bs cs : List Ev} :
      Merge as bs cs → Merge as (x :: bs) (x :: cs)

/-- The event schedules one `install_mod` invocation can produce: the
main-thread events followed by an interleaving of the download task and the
key-rotation task (both are spawned by the main thread before it returns;
schedules in which a task event overtakes a later main-thread event exist in
the program as well but are not needed here, so the set is a sound
under-approximation).  When validation or link extraction fails, no task is
spawned and the schedule is exactly the main-thread event list.  The
download task runs against a filesystem in which the final path is absent
(the main thread just deleted any pre-existing asset). -/
def InstallTrace (dir : String) (cat : List ModDescriptor) (a : InstallArgs)
    (pathExists : Bool) (g : GdownOutcome) (t : List Ev) : Prop :=
  (∀ fid mpath, (install_mod dir cat a pathExists).outcome = .started fid mpath →
      ∃ body, Merge (download_run mpath g ⟨none, none⟩).events
                (rotate_task a.internalName) body ∧
        t = (install_mod dir cat a pathExists).events ++ body)
  ∧ ((install_mod dir cat a pathExists).outcome = .invalidKey →
      t = (install_mod dir cat a pathExists).events)
  ∧ ((install_mod dir cat a pathExists).outcome = .invalidLink →
      t = (install_mod dir cat a pathExists).events)

/-! ### Uninstall (`uninstall_mod`) -/

/-- Result of `uninstall_mod(internal_name, progress_label)`:
events, label text, notification, how many key-rotation requests were sent,
whether the catalog was re-fetched (`load_mod_list`), and whether an
exception escaped. -/
structure UninstallRun where
  events : List Ev
  sinkText : Option String
  notice : MsgBox
  rotationRequests : Nat
  refreshedCatalog : Bool
  raised : Bool
  deriving DecidableEq, Repr

/-- `uninstall_mod`: if the canonical asset file exists, unprotect then
delete it and report success (and refresh the mod list); otherwise report
"Mod not found." and touch nothing. -/
def uninstall_mod (dir internalName : String) (pathExists : Bool) :
    UninstallRun :=
  let mpath := modAssetPath dir internalName
  if pathExists then
    { events := [.unprotect mpath, .deleteFile mpath],
      sinkText := some (internalName ++ " uninstalled"),
      notice := .info "Success" (internalName ++ " uninstalled!"),
      rotationRequests := 0, refreshedCatalog := true, raised := false }
  else
    { events := [], sinkText := none,
      notice := .err "Error" "Mod not found.",
      rotationRequests := 0, refreshedCatalog := false, raised := false }

/-! ### OS attribute helpers (`set_file_attributes`, `remove_file_attributes`) -/

/-- `platform.system()` branches taken by the helpers. -/
inductive OsName where
  | windows
  | darwin
  | other
  deriving DecidableEq, Repr

/-- Environment of one attribute call: whether the `os.system` shell command
exits non-zero (its exit code is discarded by the program), and whether
`os.chmod` raises `OSError`. -/
structure AttrEnv where
  shellErr : Bool
  chmodErr : Bool
  deriving DecidableEq, Repr

/-- Attribute state of one file: the Windows hidden/system/read-only flags
and the POSIX mode bits. -/
structure FileAttrs where
  hidden : Bool
  system : Bool
  readOnly : Bool
  mode : Nat
  deriving DecidableEq, Repr

/-- `set_file_attributes(file_path)`: on Windows one `attrib +h +s +r` shell
command (failure discarded); on Darwin a `chflags hidden` shell command
(failure discarded) followed by `os.chmod(path, 0o444)` (an `OSError`
propagates); elsewhere `os.chmod(path, 0o444)` alone. -/
def set_file_attributes (os : OsName) (env : AttrEnv) (a : FileAttrs) :
    Except String FileAttrs :=
  match os with
  | .windows =>
      .ok (if env.shellErr then a
           else { a with hidden := true, system := true, readOnly := true })
  | .darwin =>
      let a1 := if env.shellErr then a else { a with hidden := true }
      if env.chmodErr then .error "chmod raised OSError"
      else .ok { a1 with mode := 0o444 }
  | .other =>
      if env.chmodErr then .error "chmod raised OSError"
      else .ok { a with mode := 0o444 }

/-- `remove_file_attributes(file_path)`: the symmetric removal
(`attrib -h -s -r`, `chflags nohidden`, `os.chmod(path, 0o666)`). -/
def remove_file_attributes (os : OsName) (env : AttrEnv) (a : FileAttrs) :
    Except String FileAttrs :=
  match os with
  | .windows =>
      .ok (if env.shellErr then a
           else { a with hidden := false, system := false, readOnly := false })
  | .darwin =>
      let a1 := if env.shellErr then a else { a with hidden := false }
      if env.chmodErr then .error "chmod raised OSError"
      else .ok { a1 with mode := 0o666 }
  | .other =>
      if env.chmodErr then .error "chmod raised OSError"
      else .ok { a with mode := 0o666 }

/-! ### Entitlements (`get_user_purchased_mods`) -/

/-- One record of the JSON list returned by the `get_user_mods` endpoint;
only the optional "User Mods" field is read. -/
structure UserRecord where
  userMods : Option String
  deriving DecidableEq, Repr

/-- The observable outcome of the HTTP call in `get_user_purchased_mods`:
a 200 response with a parsed record list, a non-200 status, or a raised
exception (transport or parse error). -/
inductive ApiResponse where
  | ok (records : List UserRecord)
  | httpErr (code : Nat)
  | raise
  deriving DecidableEq, Repr

/-- `get_user_purchased_mods(user_email, password)`:
on a 200 response whose first record carries a "User Mods" field, the list
`[mod.strip().lower() for mod in user_mods_str.split(",") if mod.strip()]`;
in every other case (field absent, empty response, non-200 status, raised
exception) the empty list. -/
def get_user_purchased_mods (resp : ApiResponse) : List String :=
  match resp with
  | .ok (r :: _) =>
      match r.userMods with
      | some s =>
          ((pySplit s ",").filter (fun m => !(pyStrip m == ""))).map
            (fun m => pyLower (pyStrip m))
      | none => []
  | .ok [] => []
  | .httpErr _ => []
  | .raise => []

/-- Modelled from the spec (refinement reference for the entitlement query):
"the comma-separated field of the first returned record split into
whitespace-trimmed, lowercased, non-empty names". -/
def entitledModsSpec (field : String) : List String :=
  (((pySplit field ",").map pyStrip).filter (fun m => !(m == ""))).map pyLower

end ModInstaller

namespace ModInstaller

/-! ### Sanity checks on concrete inputs -/

example :
    extract_drive_file_id "https://drive.google.com/file/d/ABC123/view?usp=s"
      = some "ABC123" := by decide

example :
    extract_drive_file_id "https://drive.google.com/uc?id=XYZ9&export=download"
      = some "XYZ9" := by decide

example : extract_drive_file_id "https://example.com/nothing" = none := by decide

example : pyStrip " K " = "K" := by decide

example : pySplit "A, b ,,c" "," = ["A", " b ", "", "c"] := by decide

example :
    get_user_purchased_mods (.ok [⟨some " A, b ,,C "⟩])
      = ["a", "b", "c"] := by decide

example :
    entitledModsSpec " A, b ,,C " = ["a", "b", "c"] := by decide

example :
    (install_mod "/mods" [⟨"m", "x", "K", "i"⟩]
      ⟨"m", "i", "https://drive.google.com/uc?id=F", " K "⟩ false).outcome
      = .started "F" "/mods/i.scs" := by decide

example :
    (download_run "/mods/i.scs" ⟨false, some 600000⟩ ⟨none, none⟩).events
      = [.writeTmp "/mods/i.scs.tmp",
         .renameFile "/mods/i.scs.tmp" "/mods/i.scs",
         .setAttrs "/mods/i.scs"] := by decide

end ModInstaller

namespace ModInstaller

/-! ### Helper lemmas -/

theorem passesValidation_iff_isSome (dir : String) (cat : List ModDescriptor)
    (a : InstallArgs) (pe : Bool) :
    passesValidation (install_mod dir cat a pe) ↔
      (findDescriptor cat a).isSome := by
  unfold passesValidation install_mod
  cases h : findDescriptor cat a with
  | none => simp
  | some d =>
      cases hf : falsyId (extract_drive_file_id a.driveLink) with
      | false => simp [hf]
      | true => simp [hf]

theorem passesValidation_iff_exists (dir : String) (cat : List ModDescriptor)
    (a : InstallArgs) (pe : Bool) :
    passesValidation (install_mod dir cat a pe) ↔
      ∃ d ∈ cat, d.modName = a.modName ∧
        pyStrip d.serialKey = pyStrip a.serialKeyInput := by
  rw [passesValidation_iff_isSome]
  unfold findDescriptor
  simp [List.find?_isSome]

theorem install_mod_of_not_passes (dir : String) (cat : List ModDescriptor)
    (a : InstallArgs) (pe : Bool)
    (h : ¬ passesValidation (install_mod dir cat a pe)) :
    install_mod dir cat a pe =
      { outcome := .invalidKey, events := [],
        sinkText := some "Invalid Key",
        notice := some (.err "Error" "Invalid serial key!") } := by
  rw [passesValidation_iff_isSome] at h
  have hnone : findDescriptor cat a = none :=
    Option.not_isSome_iff_eq_none.mp h
  unfold install_mod
  rw [hnone]

end ModInstaller

namespace ModInstaller

/-! ### Claim theorems -/

/-- C1: for a catalog in which exactly one descriptor bears the requested
display name, `install_mod` proceeds past serial-key validation iff the
supplied key, stripped of surrounding whitespace, equals that descriptor's
current serial key, stripped; when no descriptor matches the requested name,
validation fails; and whenever validation fails, the run ends synchronously
with the invalid-serial-key report, no download is spawned and no filesystem
mutation occurs (every schedule of the invocation is the empty event list). -/
theorem C1_serial_key_gate (dir : String) (cat : List ModDescriptor)
    (a : InstallArgs) (pe : Bool) :
    (∀ d, d ∈ cat → d.modName = a.modName →
        (∀ d', d' ∈ cat → d'.modName = a.modName → d' = d) →
        (passesValidation (install_mod dir cat a pe) ↔
          pyStrip a.serialKeyInput = pyStrip d.serialKey))
    ∧ ((∀ d, d ∈ cat → d.modName ≠ a.modName) →
        ¬ passesValidation (install_mod dir cat a pe))
    ∧ (¬ passesValidation (install_mod dir cat a pe) →
        (install_mod dir cat a pe).outcome = .invalidKey
        ∧ (install_mod dir cat a pe).events = []
        ∧ (install_mod dir cat a pe).notice =
            some (.err "Error" "Invalid serial key!")
        ∧ ∀ g t, InstallTrace dir cat a pe g t → t = []) := by
  refine ⟨?_, ?_, ?_⟩
  · intro d hmem hname huniq
    rw [passesValidation_iff_exists]
    constructor
    · rintro ⟨d', hd'mem, hd'name, hd'key⟩
      rw [huniq d' hd'mem hd'name] at hd'key
      exact hd'key.symm
    · intro hkey
      exact ⟨d, hmem, hname, hkey.symm⟩
  · intro hnone
    rw [passesValidation_iff_exists]
    rintro ⟨d, hmem, hname, -⟩
    exact hnone d hmem hname
  · intro h
    have he := install_mod_of_not_passes dir cat a pe h
    refine ⟨by rw [he], by rw [he], by rw [he], ?_⟩
    intro g t ht
    have h2 := ht.2.1 (by rw [he])
    rw [h2, he]

/-- Witness for C1 at a concrete input: a one-descriptor catalog named
"premium truck" with key "K9"; the supplied key " K9 " passes validation. -/
theorem C1_serial_key_gate_witness :
    passesValidation (install_mod "/mods"
      [⟨"premium truck", "https://drive.google.com/uc?id=F", "K9", "pt"⟩]
      ⟨"premium truck", "pt", "https://drive.google.com/uc?id=F", " K9 "⟩
      false) :=
  ((C1_serial_key_gate "/mods"
      [⟨"premium truck", "https://drive.google.com/uc?id=F", "K9", "pt"⟩]
      ⟨"premium truck", "pt", "https://drive.google.com/uc?id=F", " K9 "⟩
      false).1
    ⟨"premium truck", "https://drive.google.com/uc?id=F", "K9", "pt"⟩
    (by decide) rfl
    (by intro d' h1 h2; simpa using h1)).mpr (by decide)

/-- C5 counterexample: with the catalog record "premium truck" carrying
serial key "ABCD1234XYZ999", an install supplying "abcd1234xyz999" does NOT
pass validation — the comparison in the source is case-sensitive. -/
theorem C5_counterexample :
    (install_mod "/mods"
      [⟨"premium truck", "https://drive.google.com/uc?id=F",
        "ABCD1234XYZ999", "pt"⟩]
      ⟨"premium truck", "pt", "https://drive.google.com/uc?id=F",
        "abcd1234xyz999"⟩
      false).outcome = .invalidKey := by decide

/-- C5 amended: the serial-key comparison strips surrounding whitespace but
is case-sensitive: against the catalog key "ABCD1234XYZ999" the supplied key
"abcd1234xyz999" fails validation, while " ABCD1234XYZ999  " passes. -/
theorem C5_key_comparison_case_sensitive :
    (install_mod "/mods"
      [⟨"premium truck", "https://drive.google.com/uc?id=F",
        "ABCD1234XYZ999", "pt"⟩]
      ⟨"premium truck", "pt", "https://drive.google.com/uc?id=F",
        "abcd1234xyz999"⟩
      false).outcome = .invalidKey
    ∧ passesValidation (install_mod "/mods"
      [⟨"premium truck", "https://drive.google.com/uc?id=F",
        "ABCD1234XYZ999", "pt"⟩]
      ⟨"premium truck", "pt", "https://drive.google.com/uc?id=F",
        " ABCD1234XYZ999  "⟩
      false) := by
  exact ⟨by decide, by decide⟩

end ModInstaller

namespace ModInstaller

/-- C6: when the resource reference contains neither "/file/d/" nor "id="
(the two known URL shapes) and the call has passed serial-key validation,
`install_mod` reports the invalid-link error immediately and synchronously:
the main thread emits no event, spawns no background task, and every
schedule of the invocation is the empty event list. -/
theorem C6_invalid_resource_reference (dir : String) (cat : List ModDescriptor)
    (a : InstallArgs) (pe : Bool)
    (h1 : pyContains a.driveLink "/file/d/" = false)
    (h2 : pyContains a.driveLink "id=" = false)
    (hv : passesValidation (install_mod dir cat a pe)) :
    (install_mod dir cat a pe).outcome = .invalidLink
    ∧ (install_mod dir cat a pe).events = []
    ∧ (install_mod dir cat a pe).notice =
        some (.err "Error" "Invalid Google Drive link!")
    ∧ ∀ g t, InstallTrace dir cat a pe g t → t = [] := by
  have hex : extract_drive_file_id a.driveLink = none := by
    unfold extract_drive_file_id
    rw [h1, h2]
    simp
  have hiK : (findDescriptor cat a).isSome :=
    (passesValidation_iff_isSome dir cat a pe).mp hv
  obtain ⟨d, hd⟩ := Option.isSome_iff_exists.mp hiK
  have he : install_mod dir cat a pe =
      { outcome := .invalidLink, events := [],
        sinkText := some ("Preparing " ++ a.modName ++ "..."),
        notice := some (.err "Error" "Invalid Google Drive link!") } := by
    unfold install_mod
    rw [hd, hex]
    rfl
  refine ⟨by rw [he], by rw [he], by rw [he], ?_⟩
  intro g t ht
  have h3 := ht.2.2 (by rw [he])
  rw [h3, he]

/-- Witness for C6: a malformed link with neither URL shape, on a catalog
whose descriptor matches the supplied key. -/
theorem C6_invalid_resource_reference_witness :
    (install_mod "/mods" [⟨"m", "x", "K", "i"⟩]
      ⟨"m", "i", "https://example.com/nolink", "K"⟩ false).outcome
      = .invalidLink :=
  (C6_invalid_resource_reference "/mods" [⟨"m", "x", "K", "i"⟩]
    ⟨"m", "i", "https://example.com/nolink", "K"⟩ false
    (by decide) (by decide) (by decide)).1

/-- C4: a completed transfer whose staged file is smaller than 500,000 bytes
(or missing) is treated as failed: afterwards the staging file is gone, the
progress sink reads "Download Failed", the user gets an error notification,
the body returns False, no file is present at the final path and no rename
was ever emitted. -/
theorem C4_small_transfer_fails (dest : String) (g : GdownOutcome)
    (fs0 : FsState)
    (hfin : fs0.finalSize = none) (hraised : g.raised = false)
    (hsmall : ∀ n, g.tmpAfter = some n → n < MIN_MOD_SIZE) :
    (download_run dest g fs0).fs.tmpSize = none
    ∧ (download_run dest g fs0).fs.finalSize = none
    ∧ (download_run dest g fs0).sinkText = "Download Failed"
    ∧ (download_run dest g fs0).notice =
        some (.err "Error" "Download failed! Try again.")
    ∧ (download_run dest g fs0).retVal = false
    ∧ ∀ src dst, Ev.renameFile src dst ∉ (download_run dest g fs0).events := by
  obtain ⟨raised, tmpAfter⟩ := g
  have hraised' : raised = false := hraised
  subst hraised'
  cases tmpAfter with
  | none =>
      unfold download_run
      simp [hfin]
  | some n =>
      have hn : n < MIN_MOD_SIZE := hsmall n rfl
      unfold download_run
      simp [hfin, hn]

/-- Witness for C4 at the 400,000-byte staged transfer. -/
theorem C4_small_transfer_fails_witness :
    (download_run "/mods/pt.scs" ⟨false, some 400000⟩ ⟨none, none⟩).fs.tmpSize
      = none
    ∧ (download_run "/mods/pt.scs" ⟨false, some 400000⟩
        ⟨none, none⟩).fs.finalSize = none :=
  ⟨(C4_small_transfer_fails "/mods/pt.scs" ⟨false, some 400000⟩ ⟨none, none⟩
      rfl rfl (by intro n hn; injection hn with hn2; subst hn2; decide)).1,
   (C4_small_transfer_fails "/mods/pt.scs" ⟨false, some 400000⟩ ⟨none, none⟩
      rfl rfl (by intro n hn; injection hn with hn2; subst hn2; decide)).2.1⟩

/-- C3 fails on the code: when `gdown.download` raises after writing 1,000
bytes into the staging file, the `except` handler only logs and notifies —
it deletes nothing — so the run ends with a 1,000-byte staging file on disk
and no final file, which is neither of the two states the claim allows. -/
theorem C3_exception_leaves_staging_file :
    (download_run "/mods/pt.scs" ⟨true, some 1000⟩ ⟨none, none⟩).fs
      = { tmpSize := some 1000, finalSize := none } := by decide

/-- C7: `uninstall_mod` on an internal name whose asset file is absent
reports "Mod not found." through an error box (a report distinct from the
success report of the removal path), performs no filesystem mutation, sends
no key-rotation request, does not re-fetch the catalog, and lets no
exception escape; when the file exists, the file is unprotected strictly
before it is deleted, and still no rotation request is sent. -/
theorem C7_uninstall_reports (dir internalName : String) :
    (uninstall_mod dir internalName false).notice =
        .err "Error" "Mod not found."
    ∧ (uninstall_mod dir internalName false).events = []
    ∧ (uninstall_mod dir internalName false).raised = false
    ∧ (uninstall_mod dir internalName false).rotationRequests = 0
    ∧ (uninstall_mod dir internalName false).refreshedCatalog = false
    ∧ (uninstall_mod dir internalName true).events =
        [.unprotect (modAssetPath dir internalName),
         .deleteFile (modAssetPath dir internalName)]
    ∧ (uninstall_mod dir internalName true).rotationRequests = 0
    ∧ (uninstall_mod dir internalName true).notice ≠
        (uninstall_mod dir internalName false).notice := by
  refine ⟨rfl, rfl, rfl, rfl, rfl, rfl, rfl, ?_⟩
  simp [uninstall_mod]

/-- Witness for C7 at a concrete internal name. -/
theorem C7_uninstall_reports_witness :
    (uninstall_mod "/mods" "pt" false).notice = .err "Error" "Mod not found."
    ∧ (uninstall_mod "/mods" "pt" true).events =
        [.unprotect "/mods/pt.scs", .deleteFile "/mods/pt.scs"] :=
  ⟨(C7_uninstall_reports "/mods" "pt").1,
   (C7_uninstall_reports "/mods" "pt").2.2.2.2.2.1⟩

end ModInstaller

namespace ModInstaller

/-- C8 counterexample: on Darwin, with the `chflags` shell command fine but
`os.chmod` raising `OSError`, `set_file_attributes` propagates the error to
its caller — refuting "never propagate a failure when the underlying
platform attribute call errors". -/
theorem C8_counterexample :
    set_file_attributes .darwin ⟨false, true⟩ ⟨false, false, false, 0o644⟩
      = .error "chmod raised OSError" := rfl

/-- C8 amended: the attribute calls are idempotent on their success path;
on Windows a failure of the `attrib` shell command is discarded and the call
always succeeds; on Darwin the `chflags` shell failure is likewise
discarded, but on Darwin and on other POSIX systems an error of the
`os.chmod` call propagates to the caller. -/
theorem C8_attr_calls (os : OsName) (env : AttrEnv) (a : FileAttrs) :
    ((∃ b, set_file_attributes .windows env a = .ok b)
      ∧ (∃ b, remove_file_attributes .windows env a = .ok b))
    ∧ (env.chmodErr = false →
        (∀ b, set_file_attributes os env a = .ok b →
            set_file_attributes os env b = .ok b)
        ∧ (∀ b, remove_file_attributes os env a = .ok b →
            remove_file_attributes os env b = .ok b))
    ∧ (os ≠ .windows → env.chmodErr = true →
        set_file_attributes os env a = .error "chmod raised OSError"
        ∧ remove_file_attributes os env a = .error "chmod raised OSError") := by
  obtain ⟨se, ce⟩ := env
  refine ⟨⟨⟨_, rfl⟩, ⟨_, rfl⟩⟩, ?_, ?_⟩
  · intro hce
    have hce' : ce = false := hce
    subst hce'
    constructor <;> intro b hb <;> cases os <;> cases se <;>
      (injection hb with hb) <;> subst hb <;> rfl
  · intro hos hce
    have hce' : ce = true := hce
    subst hce'
    cases os with
    | windows => exact absurd rfl hos
    | darwin => exact ⟨rfl, rfl⟩
    | other => exact ⟨rfl, rfl⟩

/-- Witness for C8 at Darwin with a healthy environment: protecting an
unprotected file succeeds and protecting it again is a fixed point. -/
theorem C8_attr_calls_witness :
    set_file_attributes .darwin ⟨false, false⟩ ⟨false, false, false, 0o644⟩
      = .ok ⟨true, false, false, 0o444⟩
    ∧ set_file_attributes .darwin ⟨false, false⟩ ⟨true, false, false, 0o444⟩
      = .ok ⟨true, false, false, 0o444⟩ :=
  ⟨rfl,
   ((C8_attr_calls .darwin ⟨false, false⟩
      ⟨false, false, false, 0o644⟩).2.1 rfl).1
     ⟨true, false, false, 0o444⟩ rfl⟩

/-- C9: the entitled-mods query returns, for a 200 response whose first
record carries the "User Mods" field, exactly that comma-separated field
split into whitespace-trimmed, lowercased, non-empty names; when the field
is absent, the response list is empty, the status is not 200, or an
exception is raised, it returns the empty list — in every case it returns
instead of raising. -/
theorem C9_entitled_mods (resp : ApiResponse) :
    (∀ r rest s, resp = .ok (r :: rest) → r.userMods = some s →
        get_user_purchased_mods resp = entitledModsSpec s)
    ∧ (∀ r rest, resp = .ok (r :: rest) → r.userMods = none →
        get_user_purchased_mods resp = [])
    ∧ (resp = .ok [] → get_user_purchased_mods resp = [])
    ∧ (∀ code, resp = .httpErr code → get_user_purchased_mods resp = [])
    ∧ (resp = .raise → get_user_purchased_mods resp = []) := by
  refine ⟨?_, ?_, ?_, ?_, ?_⟩
  · rintro r rest s rfl hs
    simp only [get_user_purchased_mods, hs]
    unfold entitledModsSpec
    rw [List.filter_map, List.map_map]
    rfl
  · rintro r rest rfl hs
    simp only [get_user_purchased_mods, hs]
  · rintro rfl; rfl
  · rintro code rfl; rfl
  · rintro rfl; rfl

/-- Witness for C9 on a concrete response carrying " A, b ,,C ". -/
theorem C9_entitled_mods_witness :
    get_user_purchased_mods (.ok [⟨some " A, b ,,C "⟩])
      = entitledModsSpec " A, b ,,C " :=
  (C9_entitled_mods (.ok [⟨some " A, b ,,C "⟩])).1
    ⟨some " A, b ,,C "⟩ [] " A, b ,,C " rfl rfl

end ModInstaller

namespace ModInstaller

theorem merge_nil_right (as : List Ev) : Merge as [] as := by
  induction as with
  | nil => exact .nil
  | cons x xs ih => exact .left ih

/-- C2 fails on the code: `install_mod` starts the key-rotation thread
immediately after spawning the download thread — not on the download's
completion callback, despite the source comment "After download completes,
update the serial key" — so the invocation admits a schedule in which the
rotation request is sent before the staged file is committed, i.e. before a
filesystem mutation of the very same install. -/
theorem C2_rotation_races_commit :
    ∃ t, InstallTrace "/mods"
        [⟨"premium truck", "https://drive.google.com/uc?id=F", "K9", "pt"⟩]
        ⟨"premium truck", "pt", "https://drive.google.com/uc?id=F", "K9"⟩
        false ⟨false, some 600000⟩ t
      ∧ ∃ i j, i < j
          ∧ t.get? i = some (.rotateRequest "pt")
          ∧ ∃ e, t.get? j = some e ∧ e.isFsMutation = true := by
  refine ⟨[.spawnDownload, .spawnRotate, .rotateRequest "pt",
           .writeTmp "/mods/pt.scs.tmp",
           .renameFile "/mods/pt.scs.tmp" "/mods/pt.scs",
           .setAttrs "/mods/pt.scs"],
    ?_, 2, 4, by omega, rfl,
    .renameFile "/mods/pt.scs.tmp" "/mods/pt.scs", rfl, rfl⟩
  unfold InstallTrace
  refine ⟨?_, ?_, ?_⟩
  · intro fid mpath h
    have h0 : (install_mod "/mods"
        [⟨"premium truck", "https://drive.google.com/uc?id=F", "K9", "pt"⟩]
        ⟨"premium truck", "pt", "https://drive.google.com/uc?id=F", "K9"⟩
        false).outcome = .started "F" "/mods/pt.scs" := by decide
    rw [h0] at h
    injection h with h1 h2
    subst h1
    subst h2
    refine ⟨.rotateRequest "pt" ::
      (download_run "/mods/pt.scs" ⟨false, some 600000⟩ ⟨none, none⟩).events,
      .right (merge_nil_right _), by decide⟩
  · intro h
    exact absurd h (by decide)
  · intro h
    exact absurd h (by decide)

theorem findDescriptor_isSome_congr (cat1 cat2 : List ModDescriptor)
    (a : InstallArgs)
    (h : List.Forall₂ (fun d1 d2 =>
        d1.modName = d2.modName ∧ d1.serialKey = d2.serialKey) cat1 cat2) :
    (findDescriptor cat1 a).isSome = (findDescriptor cat2 a).isSome := by
  unfold findDescriptor
  induction h with
  | nil => rfl
  | @cons d1 d2 l1 l2 hd tl ih =>
      obtain ⟨hn, hk⟩ := hd
      rw [List.find?_cons, List.find?_cons, hn, hk]
      cases hb : (d2.modName == a.modName &&
          (pyStrip d2.serialKey == pyStrip a.serialKeyInput)) <;>
        simp [hb, ih]

theorem install_mod_congr (dir : String) (cat1 cat2 : List ModDescriptor)
    (a : InstallArgs) (pe : Bool)
    (h : List.Forall₂ (fun d1 d2 =>
        d1.modName = d2.modName ∧ d1.serialKey = d2.serialKey) cat1 cat2) :
    install_mod dir cat1 a pe = install_mod dir cat2 a pe := by
  have hs := findDescriptor_isSome_congr cat1 cat2 a h
  unfold install_mod
  cases h1 : findDescriptor cat1 a with
  | none =>
      cases h2 : findDescriptor cat2 a with
      | none => rfl
      | some d => rw [h1, h2] at hs; simp at hs
  | some d =>
      cases h2 : findDescriptor cat2 a with
      | none => rw [h1, h2] at hs; simp at hs
      | some d2 => rfl

/-- C10: once past validation, the download target and the final asset path
derive solely from the caller-supplied resource reference and internal-name
arguments: two catalogs agreeing pointwise on display names and serial keys
— however their resource-link and internal-name fields differ — give the
identical synchronous run and the identical schedule set for the same
install call. -/
theorem C10_catalog_noninterference (dir : String)
    (cat1 cat2 : List ModDescriptor) (a : InstallArgs) (pe : Bool)
    (h : List.Forall₂ (fun d1 d2 =>
        d1.modName = d2.modName ∧ d1.serialKey = d2.serialKey) cat1 cat2) :
    install_mod dir cat1 a pe = install_mod dir cat2 a pe
    ∧ ∀ g t, InstallTrace dir cat1 a pe g t ↔ InstallTrace dir cat2 a pe g t := by
  have he := install_mod_congr dir cat1 cat2 a pe h
  refine ⟨he, ?_⟩
  intro g t
  unfold InstallTrace
  rw [he]

/-- Witness for C10: two one-descriptor catalogs differing exactly in the
resource link and internal name of the matched descriptor produce the same
install run. -/
theorem C10_catalog_noninterference_witness :
    install_mod "/mods"
      [⟨"m", "https://drive.google.com/uc?id=AAA", "K", "alpha"⟩]
      ⟨"m", "i", "https://drive.google.com/uc?id=F", "K"⟩ false
    = install_mod "/mods"
      [⟨"m", "https://drive.google.com/uc?id=BBB", "K", "beta"⟩]
      ⟨"m", "i", "https://drive.google.com/uc?id=F", "K"⟩ false :=
  (C10_catalog_noninterference "/mods"
    [⟨"m", "https://drive.google.com/uc?id=AAA", "K", "alpha"⟩]
    [⟨"m", "https://drive.google.com/uc?id=BBB", "K", "beta"⟩]
    ⟨"m", "i", "https://drive.google.com/uc?id=F", "K"⟩ false
    (.cons ⟨rfl, rfl⟩ .nil)).1

end ModInstaller
